import Mathlib

/-!
Verification of the Flask social-media CRUD API (`src/main.py`, `src/models.py`).

The store is a shallow embedding of the four SQLite tables (`users`, `posts`,
`comments`, `followers`).  Request bodies are JSON objects, modelled as
association lists of scalar JSON values.  Each route handler of `main.py` is
translated into a Lean function from a store and a request to a response and a
resulting store, following the Python control flow statement by statement,
including the places where the handler raises an uncaught exception (Flask
then answers 500) and the places where a `try/except` block catches it.

Two defects of the source are modelled faithfully rather than repaired:
the `User` model of `src/models.py` has no `first_name`/`last_name` columns
and no `to_json` method (it defines `serialize`), while `src/main.py`
constructs `User(first_name=..., last_name=...)` (a `TypeError` from the
SQLAlchemy declarative constructor, not caught by
`except (SQLAlchemyError, ValueError)`) and calls `user.to_json()`
(an `AttributeError`).
-/

namespace FlaskMedge

/-- A scalar JSON value, as found in the request bodies the API accepts. -/
inductive JVal where
  | null
  | str (s : String)
  | num (n : Int)
  | bool (b : Bool)
deriving DecidableEq

/-- Python truthiness on JSON scalars: `None`, `""`, `0` and `False` are falsy. -/
def JVal.falsy : JVal → Bool
  | .null => true
  | .str s => s == ""
  | .num n => n == 0
  | .bool b => !b

/-- A JSON object body: association list from keys to scalar values. -/
abbrev Body := List (String × JVal)

/-- `field in data` in Python: the key is present in the JSON object. -/
def hasKey (d : Body) (k : String) : Bool :=
  (List.lookup k d).isSome

/-- `field in data and data[field]` in Python: present with a truthy value. -/
def truthyKey (d : Body) (k : String) : Bool :=
  match List.lookup k d with
  | some v => !v.falsy
  | none => false

/-- The value bound to a key, `None` when absent (`data.get(field)`). -/
def getVal (d : Body) (k : String) : JVal :=
  (List.lookup k d).getD JVal.null

/-- A row of the `users` table (`src/models.py`, class `User`): columns
`id`, `email`, `password`, `is_active`.  SQLite stores dynamically typed
values, so the non-key columns hold JSON scalars. -/
structure UserR where
  id : Nat
  email : JVal
  password : JVal
  is_active : JVal
deriving DecidableEq

/-- A row of the `posts` table (`src/models.py`, class `Post`). -/
structure PostR where
  id : Nat
  user_id : Nat
  image_url : JVal
  caption : JVal
deriving DecidableEq

/-- A row of the `comments` table (`src/models.py`, class `Comment`). -/
structure CommentR where
  id : Nat
  user_id : Nat
  post_id : Nat
  content : JVal
deriving DecidableEq

/-- A row of the `followers` table (`src/models.py`, class `Follower`). -/
structure FollowerR where
  id : Nat
  user_from_id : Nat
  user_to_id : Nat
deriving DecidableEq

/-- The database state: the four tables. -/
structure Store where
  users : List UserR
  posts : List PostR
  comments : List CommentR
  followers : List FollowerR
deriving DecidableEq

/-- `User.serialize` from `src/models.py`: only `id` and `email`, never the
password. -/
def UserR.serialize (u : UserR) : Body :=
  [("id", JVal.num u.id), ("email", u.email)]

/-- `Post.serialize` from `src/models.py`. -/
def PostR.serialize (p : PostR) : Body :=
  [("id", JVal.num p.id), ("user_id", JVal.num p.user_id),
   ("image_url", p.image_url), ("caption", p.caption)]

/-- `Comment.serialize` from `src/models.py`. -/
def CommentR.serialize (c : CommentR) : Body :=
  [("id", JVal.num c.id), ("user_id", JVal.num c.user_id),
   ("post_id", JVal.num c.post_id), ("content", c.content)]

/-- `Follower.serialize` from `src/models.py`. -/
def FollowerR.serialize (e : FollowerR) : Body :=
  [("id", JVal.num e.id), ("user_from_id", JVal.num e.user_from_id),
   ("user_to_id", JVal.num e.user_to_id)]

/-- An HTTP response of the app.  `unhandled exn` is an exception that escapes
the route handler; Flask turns it into a 500 response. -/
inductive Resp where
  | errorMsg (status : Nat) (msg : String)
  | objOk (status : Nat) (obj : Body)
  | listOk (status : Nat) (objs : List Body)
  | message (status : Nat) (msg : String)
  | unhandled (exn : String)
deriving DecidableEq

/-- The HTTP status code of a response. -/
def Resp.status : Resp → Nat
  | .errorMsg s _ => s
  | .objOk s _ => s
  | .listOk s _ => s
  | .message s _ => s
  | .unhandled _ => 500

/-- Whether a response is a success (2xx). -/
def Resp.success (r : Resp) : Bool :=
  200 ≤ r.status && r.status < 300

/-- The first required field that is absent or falsy
(the `for field in required_fields: if field not in data or not data[field]`
loop of `create_user` and `create_comment`). -/
def firstBad (req : List String) (d : Body) : Option String :=
  req.find? (fun f => !(truthyKey d f))

/-- The first required field whose key is absent
(the `if field not in data` loop of `create_post` and
`create_follow_relationship`). -/
def firstAbsent (req : List String) (d : Body) : Option String :=
  req.find? (fun f => !(hasKey d f))

/-- `db.session.get(User, v)`: primary-key lookup of a user by a JSON value. -/
def findUserByVal (us : List UserR) (v : JVal) : Option UserR :=
  us.find? (fun u => v == JVal.num u.id)

/-- `db.session.get(Post, v)`: primary-key lookup of a post by a JSON value. -/
def findPostByVal (ps : List PostR) (v : JVal) : Option PostR :=
  ps.find? (fun p => v == JVal.num p.id)

/-- The id SQLite assigns to a freshly inserted row: one more than the largest
rowid in the table. -/
def freshId (l : List Nat) : Nat :=
  l.foldr max 0 + 1

/-- Primary-key lookup of a post in the store (`db.session.get(Post, i)`). -/
def getPostById (s : Store) (i : Nat) : Option PostR :=
  s.posts.find? (fun p => p.id == i)

/-- Primary-key lookup of a comment in the store
(`db.session.get(Comment, i)`). -/
def getCommentById (s : Store) (i : Nat) : Option CommentR :=
  s.comments.find? (fun c => c.id == i)

/-- Primary-key lookup of a follow edge in the store
(`db.session.get(Follower, i)`). -/
def getFollowerById (s : Store) (i : Nat) : Option FollowerR :=
  s.followers.find? (fun e => e.id == i)

/-- `GET /api/users` (`get_all_users` in `src/main.py`): the list
comprehension calls `user.to_json()`, a method the `User` model does not
define, so with at least one user the `AttributeError` is caught by
`except (AttributeError, TypeError)` and a 500 is returned; with no users the
comprehension is empty and an empty 200 list is returned. -/
def getAllUsers (s : Store) : Resp :=
  match s.users with
  | [] => .listOk 200 []
  | _ :: _ => .errorMsg 500 "AttributeError"

/-- Required fields of `create_user` in `src/main.py`. -/
def requiredUserFields : List String :=
  ["email", "first_name", "last_name", "password"]

/-- `POST /api/users` (`create_user` in `src/main.py`).  Validation and the
duplicate-email check run first; if both pass, the handler evaluates
`User(email=..., first_name=..., ...)`, and since the `User` model has no
`first_name` column the declarative constructor raises `TypeError`, which the
`except (SQLAlchemyError, ValueError)` clause does not catch.  A duplicated
stored email makes `scalar_one_or_none` raise `MultipleResultsFound`
(a `SQLAlchemyError`), caught as a 500. -/
def createUser (s : Store) (data : Body) : Resp × Store :=
  match firstBad requiredUserFields data with
  | some f => (.errorMsg 400 ("Missing required field: " ++ f), s)
  | none =>
    let v := getVal data "email"
    let ms := s.users.filter (fun u => u.email == v)
    if 2 ≤ ms.length then (.errorMsg 500 "MultipleResultsFound", s)
    else if ms.length == 1 then (.errorMsg 409 "Email already exists", s)
    else (.unhandled "TypeError", s)

/-- The tail of `update_user` after the email branch: `first_name` and
`last_name` assignments set plain instance attributes (the model has no such
columns), so only `is_active` and `password` reach the database; the commit
enforces the NOT NULL constraints, and afterwards `user.to_json()` raises an
uncaught `AttributeError` — after the commit already happened. -/
def updateUserApply (s : Store) (uid : Nat) (user : UserR) (data : Body) : Resp × Store :=
  let u1 := if hasKey data "is_active" then { user with is_active := getVal data "is_active" } else user
  let u2 := if hasKey data "password" then { u1 with password := getVal data "password" } else u1
  if u2.email == JVal.null || u2.password == JVal.null || u2.is_active == JVal.null then
    (.errorMsg 500 "IntegrityError", s)
  else
    (.unhandled "AttributeError",
     { s with users := s.users.map (fun w => if w.id == uid then u2 else w) })

/-- `PUT /api/users/<id>` (`update_user` in `src/main.py`). -/
def updateUser (s : Store) (uid : Nat) (data : Body) : Resp × Store :=
  match s.users.find? (fun u => u.id == uid) with
  | none => (.errorMsg 404 "User not found", s)
  | some user =>
    if hasKey data "email" then
      let v := getVal data "email"
      let ms := s.users.filter (fun u => u.email == v && !(u.id == uid))
      if 2 ≤ ms.length then (.errorMsg 500 "MultipleResultsFound", s)
      else if ms.length == 1 then (.errorMsg 409 "Email already exists", s)
      else updateUserApply s uid { user with email := v } data
    else updateUserApply s uid user data

/-- `DELETE /api/users/<id>` (`delete_user` in `src/main.py`).  The ORM
relationships of `User` carry `cascade="all, delete-orphan"`, so deleting a
user deletes the user's posts, the user's comments, the comments of each
deleted post (cascade on `Post.comments`), and every follow edge having the
user on either side. -/
def deleteUser (s : Store) (uid : Nat) : Resp × Store :=
  match s.users.find? (fun u => u.id == uid) with
  | none => (.errorMsg 404 "User not found", s)
  | some _ =>
    let deadPosts := s.posts.filter (fun p => p.user_id == uid)
    (.message 200 "User deleted successfully",
     { users := s.users.filter (fun u => !(u.id == uid)),
       posts := s.posts.filter (fun p => !(p.user_id == uid)),
       comments := s.comments.filter
         (fun c => !(c.user_id == uid) && !(deadPosts.any (fun p => p.id == c.post_id))),
       followers := s.followers.filter
         (fun e => !(e.user_from_id == uid) && !(e.user_to_id == uid)) })

/-- `POST /api/posts` (`create_post` in `src/main.py`): key-presence check on
`user_id` and `image_url`, author existence check, insert, 201 with
`serialize()`.  A null `image_url` violates NOT NULL at commit
(`IntegrityError`, caught as a 500 with rollback). -/
def createPost (s : Store) (data : Body) : Resp × Store :=
  match firstAbsent ["user_id", "image_url"] data with
  | some f => (.errorMsg 400 ("Missing required field: " ++ f), s)
  | none =>
    match findUserByVal s.users (getVal data "user_id") with
    | none => (.errorMsg 404 "User not found", s)
    | some u =>
      let img := getVal data "image_url"
      let cap := getVal data "caption"
      if img == JVal.null then (.errorMsg 500 "IntegrityError", s)
      else
        let p : PostR := ⟨freshId (s.posts.map PostR.id), u.id, img, cap⟩
        (.objOk 201 p.serialize, { s with posts := s.posts ++ [p] })

/-- `PUT /api/posts/<id>` (`update_post` in `src/main.py`): only the supplied
fields among `image_url` and `caption` are assigned; the commit enforces
NOT NULL on `image_url`. -/
def updatePost (s : Store) (pid : Nat) (data : Body) : Resp × Store :=
  match s.posts.find? (fun p => p.id == pid) with
  | none => (.errorMsg 404 "Post not found", s)
  | some p =>
    let p1 := if hasKey data "image_url" then { p with image_url := getVal data "image_url" } else p
    let p2 := if hasKey data "caption" then { p1 with caption := getVal data "caption" } else p1
    if p2.image_url == JVal.null then (.errorMsg 500 "IntegrityError", s)
    else
      (.objOk 200 p2.serialize,
       { s with posts := s.posts.map (fun q => if q.id == pid then p2 else q) })

/-- Required fields of `create_comment` in `src/main.py`. -/
def requiredCommentFields : List String :=
  ["user_id", "post_id", "content"]

/-- `POST /api/comments` (`create_comment` in `src/main.py`): truthiness
check on the required fields, existence checks on author and post, insert,
201 with `serialize()`. -/
def createComment (s : Store) (data : Body) : Resp × Store :=
  match firstBad requiredCommentFields data with
  | some f => (.errorMsg 400 ("Missing required field: " ++ f), s)
  | none =>
    match findUserByVal s.users (getVal data "user_id") with
    | none => (.errorMsg 404 "User not found", s)
    | some u =>
      match findPostByVal s.posts (getVal data "post_id") with
      | none => (.errorMsg 404 "Post not found", s)
      | some p =>
        let c : CommentR := ⟨freshId (s.comments.map CommentR.id), u.id, p.id, getVal data "content"⟩
        (.objOk 201 c.serialize, { s with comments := s.comments ++ [c] })

/-- `POST /api/followers` (`create_follow_relationship` in `src/main.py`):
key-presence check, self-follow check, existence checks on both users,
duplicate-pair check via `scalar_one_or_none`, insert. -/
def createFollow (s : Store) (data : Body) : Resp × Store :=
  match firstAbsent ["user_from_id", "user_to_id"] data with
  | some f => (.errorMsg 400 ("Missing required field: " ++ f), s)
  | none =>
    let vf := getVal data "user_from_id"
    let vt := getVal data "user_to_id"
    if vf == vt then (.errorMsg 400 "Users cannot follow themselves", s)
    else
      match findUserByVal s.users vf with
      | none => (.errorMsg 404 "Follower user not found", s)
      | some fu =>
        match findUserByVal s.users vt with
        | none => (.errorMsg 404 "User to follow not found", s)
        | some tu =>
          let ms := s.followers.filter
            (fun e => vf == JVal.num e.user_from_id &&
                      vt == JVal.num e.user_to_id)
          if 2 ≤ ms.length then (.errorMsg 500 "MultipleResultsFound", s)
          else if ms.length == 1 then (.errorMsg 409 "Follow relationship already exists", s)
          else
            let e : FollowerR := ⟨freshId (s.followers.map FollowerR.id), fu.id, tu.id⟩
            (.objOk 201 e.serialize, { s with followers := s.followers ++ [e] })

/-- The empty database. -/
def emptyStore : Store := ⟨[], [], [], []⟩

/-! ### Helper lemmas -/

/-- Comparing two numeric JSON values is comparing the numbers. -/
@[simp]
theorem num_beq_eq (m n : Nat) :
    (JVal.num m == JVal.num n) = (m == n) := by
  by_cases h : m = n
  · subst h; simp
  · have h1 : JVal.num (m : Int) ≠ JVal.num (n : Int) := by
      intro hc
      exact h (Nat.cast_inj.mp (JVal.num.inj hc))
    rw [beq_eq_false_iff_ne.mpr h1, beq_eq_false_iff_ne.mpr h]

/-- In a list whose `f`-keys are distinct, `find?` by the key of a member
returns that member. -/
theorem find_of_mem_nodup {α β : Type} [DecidableEq β] (f : α → β) :
    ∀ (l : List α) (a : α), a ∈ l → (l.map f).Nodup →
      l.find? (fun x => f x == f a) = some a := by
  intro l
  induction l with
  | nil => intro a ha _; cases ha
  | cons b t ih =>
    intro a ha hnd
    rw [List.map_cons, List.nodup_cons] at hnd
    by_cases hba : f b = f a
    · have hab : a = b := by
        rcases List.mem_cons.mp ha with h | h
        · exact h
        · exact absurd (hba ▸ List.mem_map_of_mem f h) hnd.1
      subst hab
      simp [List.find?_cons, hba]
    · have hat : a ∈ t := by
        rcases List.mem_cons.mp ha with h | h
        · exact absurd (by rw [h]) hba
        · exact h
      have hpred : (f b == f a) = false := beq_eq_false_iff_ne.mpr hba
      rw [List.find?_cons, hpred]
      exact ih a hat hnd.2

/-- In a list whose `f`-keys are distinct, after filtering out a member,
`find?` by that member's key fails. -/
theorem find_filter_none {α β : Type} [DecidableEq β] (f : α → β) (q : α → Bool)
    (l : List α) (a : α) (ha : a ∈ l) (hnd : (l.map f).Nodup) (hq : q a = false) :
    (l.filter q).find? (fun x => f x == f a) = none := by
  rw [List.find?_eq_none]
  intro x hx hbeq
  have hx' := List.mem_filter.mp hx
  have hfx : f x = f a := by simpa using hbeq
  have hxa : x = a := List.inj_on_of_nodup_map hnd hx'.1 ha hfx
  rw [hxa, hq] at hx'
  exact absurd hx'.2 (by simp)

/-- Claim C1: deleting a stored user succeeds and cascades: afterwards no post
of the user, no comment by the user, no comment on any of the user's posts and
no follow edge touching the user can be found in the store. -/
theorem delete_user_cascades (s : Store) (u : UserR)
    (hu : u ∈ s.users)
    (hndp : (s.posts.map PostR.id).Nodup)
    (hndc : (s.comments.map CommentR.id).Nodup)
    (hndf : (s.followers.map FollowerR.id).Nodup) :
    (deleteUser s u.id).fst = Resp.message 200 "User deleted successfully" ∧
    (∀ p ∈ s.posts, p.user_id = u.id → getPostById (deleteUser s u.id).snd p.id = none) ∧
    (∀ c ∈ s.comments, c.user_id = u.id → getCommentById (deleteUser s u.id).snd c.id = none) ∧
    (∀ c ∈ s.comments, ∀ p ∈ s.posts, p.user_id = u.id → c.post_id = p.id →
        getCommentById (deleteUser s u.id).snd c.id = none) ∧
    (∀ e ∈ s.followers, e.user_from_id = u.id ∨ e.user_to_id = u.id →
        getFollowerById (deleteUser s u.id).snd e.id = none) := by
  obtain ⟨w, hw⟩ : ∃ w, s.users.find? (fun x => x.id == u.id) = some w := by
    apply Option.isSome_iff_exists.mp
    rw [List.find?_isSome]
    exact ⟨u, hu, by simp⟩
  simp only [deleteUser, hw, getPostById, getCommentById, getFollowerById]
  refine ⟨trivial, ?_, ?_, ?_, ?_⟩
  · intro p hp hpu
    exact find_filter_none PostR.id _ s.posts p hp hndp (by simp [hpu])
  · intro c hc hcu
    exact find_filter_none CommentR.id _ s.comments c hc hndc (by simp [hcu])
  · intro c hc p hp hpu hcp
    have hany : ((s.posts.filter (fun p => p.user_id == u.id)).any
        (fun p => p.id == c.post_id)) = true := by
      rw [List.any_eq_true]
      exact ⟨p, List.mem_filter.mpr ⟨hp, by simp [hpu]⟩, by simp [hcp]⟩
    exact find_filter_none CommentR.id _ s.comments c hc hndc (by simp [hany])
  · intro e he hor
    rcases hor with h | h
    · exact find_filter_none FollowerR.id _ s.followers e he hndf (by simp [h])
    · exact find_filter_none FollowerR.id _ s.followers e he hndf (by simp [h])


/-- The concrete user deleted in the cascade example. -/
def exUserA : UserR := ⟨1, JVal.str "a@x.com", JVal.str "p", JVal.bool true⟩

/-- A concrete store: two users, one post each, mutual comments and mutual
follow edges. -/
def exStore : Store :=
  ⟨[exUserA, ⟨2, JVal.str "b@x.com", JVal.str "q", JVal.bool true⟩],
   [⟨1, 1, JVal.str "u.jpg", JVal.null⟩, ⟨2, 2, JVal.str "w.jpg", JVal.null⟩],
   [⟨1, 2, 1, JVal.str "hi"⟩, ⟨2, 1, 2, JVal.str "yo"⟩],
   [⟨1, 1, 2⟩, ⟨2, 2, 1⟩]⟩

/-- Witness for `delete_user_cascades` at the concrete store `exStore`. -/
theorem delete_user_cascades_witness :
    exUserA ∈ exStore.users ∧
    (exStore.posts.map PostR.id).Nodup ∧
    (exStore.comments.map CommentR.id).Nodup ∧
    (exStore.followers.map FollowerR.id).Nodup ∧
    ((deleteUser exStore exUserA.id).fst = Resp.message 200 "User deleted successfully" ∧
     (∀ p ∈ exStore.posts, p.user_id = exUserA.id →
         getPostById (deleteUser exStore exUserA.id).snd p.id = none) ∧
     (∀ c ∈ exStore.comments, c.user_id = exUserA.id →
         getCommentById (deleteUser exStore exUserA.id).snd c.id = none) ∧
     (∀ c ∈ exStore.comments, ∀ p ∈ exStore.posts, p.user_id = exUserA.id → c.post_id = p.id →
         getCommentById (deleteUser exStore exUserA.id).snd c.id = none) ∧
     (∀ e ∈ exStore.followers, e.user_from_id = exUserA.id ∨ e.user_to_id = exUserA.id →
         getFollowerById (deleteUser exStore exUserA.id).snd e.id = none)) :=
  ⟨by decide, by decide, by decide, by decide,
   delete_user_cascades exStore exUserA (by decide) (by decide) (by decide) (by decide)⟩

/-- A store holding exactly one user, used by the `update_user` and
`get_all_users` defect theorems. -/
def oneUserStore : Store :=
  ⟨[⟨1, JVal.str "a@x.com", JVal.str "pw", JVal.bool true⟩], [], [], []⟩

/-- Claim C2 (refuting input): `update_user` on an existing user with a new
password first commits the change and only then evaluates `user.to_json()`,
which raises an uncaught `AttributeError`; the request fails with a 500 yet
the store keeps the committed change, so a failed mutation is not rolled
back. -/
theorem update_user_commit_then_crash :
    (updateUser oneUserStore 1 [("password", JVal.str "newpw")]).fst
        = Resp.unhandled "AttributeError" ∧
    (updateUser oneUserStore 1 [("password", JVal.str "newpw")]).fst.success = false ∧
    (updateUser oneUserStore 1 [("password", JVal.str "newpw")]).snd ≠ oneUserStore ∧
    (updateUser oneUserStore 1 [("password", JVal.str "newpw")]).snd.users
        = [⟨1, JVal.str "a@x.com", JVal.str "newpw", JVal.bool true⟩] := by
  decide

/-- Claim C3 (refuting input): a fully valid `create_user` request on the
empty store reaches `User(email=..., first_name=..., ...)`, whose declarative
constructor raises `TypeError` because the model has no `first_name` column;
the request answers 500 and no user is persisted — creation never returns
201. -/
theorem create_user_constructor_crash :
    createUser emptyStore
        [("email", JVal.str "a@x.com"), ("first_name", JVal.str "John"),
         ("last_name", JVal.str "Doe"), ("password", JVal.str "pw")]
      = (Resp.unhandled "TypeError", emptyStore) := by
  decide

/-- Claim C7 (refuting input): `get_all_users` answers 500 on any store with
at least one user, because `user.to_json()` does not exist and the
`AttributeError` is caught by the 500 handler; only the empty store yields a
200 list. -/
theorem get_all_users_crashes_when_nonempty :
    getAllUsers oneUserStore = Resp.errorMsg 500 "AttributeError" ∧
    getAllUsers emptyStore = Resp.listOk 200 [] := by
  decide

/-- Claim C4: when some stored user already has the requested email (and, as
for every reachable store, that email is held by exactly one stored user), a
fully supplied `create_user` request with that email answers 409 and leaves
the store — in particular the set of stored users — unchanged. -/
theorem create_user_duplicate_email_conflict (s : Store) (data : Body) (u : UserR) (e : JVal)
    (_hu : u ∈ s.users) (_hue : u.email = e)
    (h1 : truthyKey data "email" = true)
    (h2 : truthyKey data "first_name" = true)
    (h3 : truthyKey data "last_name" = true)
    (h4 : truthyKey data "password" = true)
    (he : List.lookup "email" data = some e)
    (huniq : (s.users.filter (fun w => w.email == e)).length = 1) :
    createUser s data = (Resp.errorMsg 409 "Email already exists", s) := by
  have hfb : firstBad requiredUserFields data = none := by
    rw [firstBad, List.find?_eq_none]
    intro f hfm
    rcases (by simpa [requiredUserFields] using hfm :
        f = "email" ∨ f = "first_name" ∨ f = "last_name" ∨ f = "password") with
      h | h | h | h <;> subst h <;> simp [h1, h2, h3, h4]
  simp [createUser, hfb, getVal, he, huniq]

/-- A concrete `create_user` body reusing the email stored in
`oneUserStore`. -/
def dupEmailBody : Body :=
  [("email", JVal.str "a@x.com"), ("first_name", JVal.str "Jane"),
   ("last_name", JVal.str "Doe"), ("password", JVal.str "pw2")]

/-- Witness for `create_user_duplicate_email_conflict` at a concrete store. -/
theorem create_user_duplicate_email_conflict_witness :
    truthyKey dupEmailBody "email" = true ∧
    List.lookup "email" dupEmailBody = some (JVal.str "a@x.com") ∧
    (oneUserStore.users.filter (fun w => w.email == JVal.str "a@x.com")).length = 1 ∧
    createUser oneUserStore dupEmailBody
      = (Resp.errorMsg 409 "Email already exists", oneUserStore) :=
  ⟨by decide, by decide, by decide,
   create_user_duplicate_email_conflict oneUserStore dupEmailBody
     ⟨1, JVal.str "a@x.com", JVal.str "pw", JVal.bool true⟩ (JVal.str "a@x.com")
     (by decide) (by decide) (by decide) (by decide) (by decide) (by decide)
     (by decide) (by decide)⟩

/-- Claim C5: a follow request whose `user_from_id` and `user_to_id` are the
same value is rejected with a 400 and the store is untouched; no hypothesis
about user existence is needed, because the self-follow check runs before the
existence checks. -/
theorem create_follow_self_rejected (s : Store) (data : Body) (v : JVal)
    (hf : List.lookup "user_from_id" data = some v)
    (ht : List.lookup "user_to_id" data = some v) :
    createFollow s data = (Resp.errorMsg 400 "Users cannot follow themselves", s) := by
  have hfa : firstAbsent ["user_from_id", "user_to_id"] data = none := by
    rw [firstAbsent, List.find?_eq_none]
    intro f hfm
    rcases (by simpa using hfm : f = "user_from_id" ∨ f = "user_to_id") with h | h <;>
      subst h <;> simp [hasKey, hf, ht]
  simp [createFollow, hfa, getVal, hf, ht]

/-- Witness for `create_follow_self_rejected`: a self-follow of a user id that
does not even exist in the empty store is still rejected with 400. -/
theorem create_follow_self_rejected_witness :
    List.lookup "user_from_id" [("user_from_id", JVal.num 3), ("user_to_id", JVal.num 3)]
        = some (JVal.num 3) ∧
    createFollow emptyStore [("user_from_id", JVal.num 3), ("user_to_id", JVal.num 3)]
      = (Resp.errorMsg 400 "Users cannot follow themselves", emptyStore) :=
  ⟨by decide,
   create_follow_self_rejected emptyStore
     [("user_from_id", JVal.num 3), ("user_to_id", JVal.num 3)]
     (JVal.num 3) (by decide) (by decide)⟩

/-- Claim C6: when the store already holds exactly one follow edge for the
ordered pair `(a, b)` (pair uniqueness is an invariant of reachable stores),
with `a ≠ b` and both users present (also invariants), a follow request for
the same pair answers 409 and the store — the original edge included — is
unchanged. -/
theorem create_follow_duplicate_conflict (s : Store) (a b : Nat)
    (hea : ∃ u ∈ s.users, u.id = a) (heb : ∃ u ∈ s.users, u.id = b)
    (hab : a ≠ b)
    (hone : (s.followers.filter
        (fun e => a == e.user_from_id && b == e.user_to_id)).length = 1) :
    createFollow s
        [("user_from_id", JVal.num a), ("user_to_id", JVal.num b)]
      = (Resp.errorMsg 409 "Follow relationship already exists", s) := by
  have hlf : List.lookup "user_from_id"
      [("user_from_id", JVal.num a), ("user_to_id", JVal.num b)]
      = some (JVal.num a) := rfl
  have hlt : List.lookup "user_to_id"
      [("user_from_id", JVal.num a), ("user_to_id", JVal.num b)]
      = some (JVal.num b) := rfl
  have hfa : firstAbsent ["user_from_id", "user_to_id"]
      [("user_from_id", JVal.num a), ("user_to_id", JVal.num b)]
      = none := by
    rw [firstAbsent, List.find?_eq_none]
    intro f hfm
    rcases (by simpa using hfm : f = "user_from_id" ∨ f = "user_to_id") with h | h <;>
      subst h <;> simp [hasKey, hlf, hlt]
  have hselfb : (a == b) = false := beq_eq_false_iff_ne.mpr hab
  obtain ⟨ua, hua, hida⟩ := hea
  obtain ⟨fu, hfu⟩ : ∃ fu,
      findUserByVal s.users (JVal.num a) = some fu := by
    apply Option.isSome_iff_exists.mp
    rw [findUserByVal, List.find?_isSome]
    exact ⟨ua, hua, by simp [hida]⟩
  obtain ⟨ub, hub, hidb⟩ := heb
  obtain ⟨tu, htu⟩ : ∃ tu,
      findUserByVal s.users (JVal.num b) = some tu := by
    apply Option.isSome_iff_exists.mp
    rw [findUserByVal, List.find?_isSome]
    exact ⟨ub, hub, by simp [hidb]⟩
  simp [createFollow, hfa, getVal, hlf, hlt, hselfb, hfu, htu, hone]

/-- A concrete store with two users and the follow edge `(1, 2)`. -/
def followStore : Store :=
  ⟨[⟨1, JVal.str "a@x.com", JVal.str "p", JVal.bool true⟩,
    ⟨2, JVal.str "b@x.com", JVal.str "q", JVal.bool true⟩],
   [], [], [⟨1, 1, 2⟩]⟩

/-- Witness for `create_follow_duplicate_conflict` at `followStore`. -/
theorem create_follow_duplicate_conflict_witness :
    (∃ u ∈ followStore.users, u.id = 1) ∧
    (1 : Nat) ≠ 2 ∧
    (followStore.followers.filter
        (fun e => 1 == e.user_from_id && 2 == e.user_to_id)).length = 1 ∧
    createFollow followStore
        [("user_from_id", JVal.num 1), ("user_to_id", JVal.num 2)]
      = (Resp.errorMsg 409 "Follow relationship already exists", followStore) :=
  ⟨by decide, by decide, by decide,
   create_follow_duplicate_conflict followStore 1 2
     (by decide) (by decide) (by decide) (by decide)⟩

/-- Claim C8: updating a stored post with a body that supplies only `caption`
replaces exactly that post's caption; the post's `id`, `user_id` and
`image_url` and every other row of the store are unchanged, and the 200 body
is the updated projection. -/
theorem update_post_caption_only (s : Store) (p : PostR) (data : Body) (v : JVal)
    (hp : p ∈ s.posts) (hnd : (s.posts.map PostR.id).Nodup)
    (hni : List.lookup "image_url" data = none)
    (hc : List.lookup "caption" data = some v)
    (himg : p.image_url ≠ JVal.null) :
    updatePost s p.id data
      = (Resp.objOk 200 (PostR.serialize { p with caption := v }),
         { s with posts := (s.posts.map
             (fun q => if q.id == p.id then { p with caption := v } else q)) }) := by
  have hfind : s.posts.find? (fun q => q.id == p.id) = some p :=
    find_of_mem_nodup PostR.id s.posts p hp hnd
  have himgb : (p.image_url == JVal.null) = false := beq_eq_false_iff_ne.mpr himg
  simp [updatePost, hfind, hasKey, getVal, hni, hc, himgb]

/-- A concrete store with a single captionless post. -/
def onePostStore : Store :=
  ⟨[], [⟨1, 1, JVal.str "img.jpg", JVal.null⟩], [], []⟩

/-- Witness for `update_post_caption_only` at `onePostStore`. -/
theorem update_post_caption_only_witness :
    (⟨1, 1, JVal.str "img.jpg", JVal.null⟩ : PostR) ∈ onePostStore.posts ∧
    List.lookup "image_url" [("caption", JVal.str "x")] = none ∧
    updatePost onePostStore 1 [("caption", JVal.str "x")]
      = (Resp.objOk 200 (PostR.serialize ⟨1, 1, JVal.str "img.jpg", JVal.str "x"⟩),
         { onePostStore with posts := (onePostStore.posts.map
             (fun q => if q.id == 1 then ⟨1, 1, JVal.str "img.jpg", JVal.str "x"⟩ else q)) }) :=
  ⟨by decide, by decide,
   update_post_caption_only onePostStore ⟨1, 1, JVal.str "img.jpg", JVal.null⟩
     [("caption", JVal.str "x")] (JVal.str "x")
     (by decide) (by decide) (by decide) (by decide) (by decide)⟩

/-- A key that is present maps to its `getVal`. -/
theorem lookup_eq_of_hasKey (d : Body) (k : String) (h : hasKey d k = true) :
    List.lookup k d = some (getVal d k) := by
  rw [hasKey] at h
  cases hl : List.lookup k d with
  | none => rw [hl] at h; simp at h
  | some v => rw [getVal, hl]; rfl

/-- Claim C9: whenever `create_post` answers 201, the body it returns carries
exactly the request's `user_id` and `image_url`, and its `caption` is the
request's caption with `null` standing in when the request omitted it. -/
theorem create_post_serialize_roundtrip (s : Store) (data : Body) (b : Body)
    (h : (createPost s data).fst = Resp.objOk 201 b) :
    List.lookup "user_id" b = List.lookup "user_id" data ∧
    List.lookup "image_url" b = List.lookup "image_url" data ∧
    List.lookup "caption" b = some ((List.lookup "caption" data).getD JVal.null) ∧
    (List.lookup "caption" data = none → List.lookup "caption" b = some JVal.null) := by
  cases hfa : firstAbsent ["user_id", "image_url"] data with
  | some f => simp [createPost, hfa] at h
  | none =>
  cases hus : findUserByVal s.users (getVal data "user_id") with
  | none => simp [createPost, hfa, hus] at h
  | some u =>
  cases himg : (getVal data "image_url" == JVal.null) with
  | true => simp [createPost, hfa, hus, himg] at h
  | false =>
    have hb : PostR.serialize
        ⟨freshId (s.posts.map PostR.id), u.id, getVal data "image_url", getVal data "caption"⟩
        = b := by
      simpa [createPost, hfa, hus, himg] using h
    have h1 : hasKey data "user_id" = true := by
      have := List.find?_eq_none.mp (by rwa [firstAbsent] at hfa) "user_id" (by simp)
      simpa using this
    have h2 : hasKey data "image_url" = true := by
      have := List.find?_eq_none.mp (by rwa [firstAbsent] at hfa) "image_url" (by simp)
      simpa using this
    have hgv : getVal data "user_id" = JVal.num u.id := by
      have := List.find?_some (by rwa [findUserByVal] at hus)
      exact eq_of_beq this
    subst hb
    refine ⟨?_, ?_, rfl, fun hn => ?_⟩
    · calc List.lookup "user_id" (PostR.serialize
            ⟨freshId (s.posts.map PostR.id), u.id, getVal data "image_url",
             getVal data "caption"⟩)
          = some (JVal.num u.id) := rfl
        _ = some (getVal data "user_id") := by rw [hgv]
        _ = List.lookup "user_id" data := (lookup_eq_of_hasKey data "user_id" h1).symm
    · calc List.lookup "image_url" (PostR.serialize
            ⟨freshId (s.posts.map PostR.id), u.id, getVal data "image_url",
             getVal data "caption"⟩)
          = some (getVal data "image_url") := rfl
        _ = List.lookup "image_url" data := (lookup_eq_of_hasKey data "image_url" h2).symm
    · show some (getVal data "caption") = some JVal.null
      rw [getVal, hn]
      rfl

/-- A store with one user, author of the post of the round-trip witness. -/
def authorStore : Store :=
  ⟨[⟨1, JVal.str "a@x.com", JVal.str "pw", JVal.bool true⟩], [], [], []⟩

/-- Witness for `create_post_serialize_roundtrip`: a captionless request. -/
theorem create_post_serialize_roundtrip_witness :
    (createPost authorStore [("user_id", JVal.num 1), ("image_url", JVal.str "img.jpg")]).fst
      = Resp.objOk 201
          [("id", JVal.num 1), ("user_id", JVal.num 1),
           ("image_url", JVal.str "img.jpg"), ("caption", JVal.null)] ∧
    (List.lookup "user_id"
        [("id", JVal.num 1), ("user_id", JVal.num 1),
         ("image_url", JVal.str "img.jpg"), ("caption", JVal.null)]
      = List.lookup "user_id" [("user_id", JVal.num 1), ("image_url", JVal.str "img.jpg")] ∧
     List.lookup "image_url"
        [("id", JVal.num 1), ("user_id", JVal.num 1),
         ("image_url", JVal.str "img.jpg"), ("caption", JVal.null)]
      = List.lookup "image_url" [("user_id", JVal.num 1), ("image_url", JVal.str "img.jpg")] ∧
     List.lookup "caption"
        [("id", JVal.num 1), ("user_id", JVal.num 1),
         ("image_url", JVal.str "img.jpg"), ("caption", JVal.null)]
      = some ((List.lookup "caption"
          [("user_id", JVal.num 1), ("image_url", JVal.str "img.jpg")]).getD JVal.null) ∧
     (List.lookup "caption" [("user_id", JVal.num 1), ("image_url", JVal.str "img.jpg")] = none →
      List.lookup "caption"
        [("id", JVal.num 1), ("user_id", JVal.num 1),
         ("image_url", JVal.str "img.jpg"), ("caption", JVal.null)]
        = some JVal.null)) :=
  ⟨by decide,
   create_post_serialize_roundtrip authorStore
     [("user_id", JVal.num 1), ("image_url", JVal.str "img.jpg")]
     [("id", JVal.num 1), ("user_id", JVal.num 1),
      ("image_url", JVal.str "img.jpg"), ("caption", JVal.null)]
     (by decide)⟩

/-- Claim C10: in `create_user` and `create_comment` a required field that is
present but bound to a falsy JSON value (null, empty string, zero or false)
is treated like a missing field: the request answers 400 naming a required
field that is absent or falsy, and the store is untouched. -/
theorem falsy_required_fields_rejected (s1 s2 : Store) (dU dC : Body)
    (fU fC : String) (vU vC : JVal)
    (hfU : fU ∈ requiredUserFields) (hvU : List.lookup fU dU = some vU)
    (hfalU : vU.falsy = true)
    (hfC : fC ∈ requiredCommentFields) (hvC : List.lookup fC dC = some vC)
    (hfalC : vC.falsy = true) :
    (∃ g ∈ requiredUserFields, truthyKey dU g = false ∧
        createUser s1 dU = (Resp.errorMsg 400 ("Missing required field: " ++ g), s1)) ∧
    (∃ g ∈ requiredCommentFields, truthyKey dC g = false ∧
        createComment s2 dC = (Resp.errorMsg 400 ("Missing required field: " ++ g), s2)) := by
  constructor
  · have htU : truthyKey dU fU = false := by rw [truthyKey, hvU]; simp [hfalU]
    obtain ⟨g, hg⟩ : ∃ g, requiredUserFields.find? (fun f => !(truthyKey dU f)) = some g := by
      apply Option.isSome_iff_exists.mp
      rw [List.find?_isSome]
      exact ⟨fU, hfU, by simp [htU]⟩
    refine ⟨g, List.mem_of_find?_eq_some hg, by simpa using List.find?_some hg, ?_⟩
    simp [createUser, firstBad, hg]
  · have htC : truthyKey dC fC = false := by rw [truthyKey, hvC]; simp [hfalC]
    obtain ⟨g, hg⟩ : ∃ g, requiredCommentFields.find? (fun f => !(truthyKey dC f)) = some g := by
      apply Option.isSome_iff_exists.mp
      rw [List.find?_isSome]
      exact ⟨fC, hfC, by simp [htC]⟩
    refine ⟨g, List.mem_of_find?_eq_some hg, by simpa using List.find?_some hg, ?_⟩
    simp [createComment, firstBad, hg]

/-- Witness for `falsy_required_fields_rejected`: a user body with an empty
email and a comment body with a null content, both fully keyed. -/
theorem falsy_required_fields_rejected_witness :
    "email" ∈ requiredUserFields ∧
    List.lookup "email"
        [("email", JVal.str ""), ("first_name", JVal.str "J"),
         ("last_name", JVal.str "D"), ("password", JVal.str "p")] = some (JVal.str "") ∧
    "content" ∈ requiredCommentFields ∧
    List.lookup "content"
        [("user_id", JVal.num 1), ("post_id", JVal.num 1), ("content", JVal.null)]
      = some JVal.null ∧
    ((∃ g ∈ requiredUserFields,
        truthyKey [("email", JVal.str ""), ("first_name", JVal.str "J"),
                   ("last_name", JVal.str "D"), ("password", JVal.str "p")] g = false ∧
        createUser emptyStore
            [("email", JVal.str ""), ("first_name", JVal.str "J"),
             ("last_name", JVal.str "D"), ("password", JVal.str "p")]
          = (Resp.errorMsg 400 ("Missing required field: " ++ g), emptyStore)) ∧
     (∃ g ∈ requiredCommentFields,
        truthyKey [("user_id", JVal.num 1), ("post_id", JVal.num 1),
                   ("content", JVal.null)] g = false ∧
        createComment oneUserStore
            [("user_id", JVal.num 1), ("post_id", JVal.num 1), ("content", JVal.null)]
          = (Resp.errorMsg 400 ("Missing required field: " ++ g), oneUserStore))) :=
  ⟨by decide, by decide, by decide, by decide,
   falsy_required_fields_rejected emptyStore oneUserStore
     [("email", JVal.str ""), ("first_name", JVal.str "J"),
      ("last_name", JVal.str "D"), ("password", JVal.str "p")]
     [("user_id", JVal.num 1), ("post_id", JVal.num 1), ("content", JVal.null)]
     "email" "content" (JVal.str "") JVal.null
     (by decide) (by decide) (by decide) (by decide) (by decide) (by decide)⟩

end FlaskMedge
